import Mathlib

/-!
Shallow embedding of the `monads` TypeScript library: three two-variant sum
types — `Option` (`SomeImpl`/`NoneImpl`), `Either` (`LeftImpl`/`RightImpl`)
and `Result` (`OkImpl`/`ErrImpl`) — with their methods and free predicates.

Conventions of the embedding:
- JS exceptions are modelled with `Except JSError`; `throw new Error(m)`
  becomes `Except.error (JSError.error m)` and `throw new ReferenceError(m)`
  becomes `Except.error (JSError.referenceError m)`.
- Caller-supplied callbacks may themselves throw, so callback parameters have
  type `α → Except JSError β`; methods that never evaluate a callback and
  contain no `throw` are embedded as plain (hence total) functions.
- The optional `msg?: string` parameter of `unwrap`/`unwrapErr` is modelled as
  `Option String` (`none` = argument omitted / `undefined`).  The source tests
  it with `if (msg)`, i.e. JS truthiness, under which both `undefined` and the
  empty string `""` are falsy; the embedding spells this test out.
- The JS method named `match` is embedded as `matchOn` (`match` is a Lean
  keyword); all other names follow the source.
-/

/-- Errors thrown by the library: `new Error(msg)` or `new ReferenceError(msg)`. -/
inductive JSError where
  | error (msg : String)
  | referenceError (msg : String)
  deriving DecidableEq

/-- An `Except` computation returned normally, i.e. did not throw. -/
def returnsNormally {ε α : Type} (r : Except ε α) : Prop :=
  ∃ b, r = Except.ok b

/-- The `Option` sum type: `SomeImpl` holds `val`, `NoneImpl` holds nothing. -/
inductive Opt (α : Type) where
  | Some (val : α)
  | None
  deriving DecidableEq

/-- Discriminant symbols of `OptionType`. -/
inductive OptionType where
  | Some
  | None
  deriving DecidableEq

/-- A value that may be the JS `undefined` sentinel (the parameter type of
`OptionExt.ofUndefinable` is `T | undefined`). -/
inductive Undefinable (α : Type) where
  | undefined
  | value (v : α)
  deriving DecidableEq

/-- A fragment of the JS value domain that contains `null`, used to state
facts about `null` payloads (in JS, `null` is distinct from `undefined`). -/
inductive JSVal where
  | null
  | num (n : Int)
  | str (s : String)
  deriving DecidableEq

/-- Handler object for `Option.match`.  The `some` field is a callback; the
`none` field is either a zero-argument callback (`Sum.inl`) or a literal
default value (`Sum.inr`), mirroring the `typeof none === 'function'` test
performed by `NoneImpl.match`. -/
structure MatchOption (α β : Type) where
  some : α → Except JSError β
  none : Sum (Unit → Except JSError β) β

/-- The `type` getter: `OptionType.Some` for `SomeImpl`, `OptionType.None`
for `NoneImpl`. -/
def Opt.type {α : Type} : Opt α → OptionType
  | .Some _ => .Some
  | .None => .None

/-- `SomeImpl.isSome` returns `true`; `NoneImpl.isSome` returns `false`. -/
def Opt.isSome {α : Type} : Opt α → Bool
  | .Some _ => true
  | .None => false

/-- `SomeImpl.isNone` returns `false`; `NoneImpl.isNone` returns `true`. -/
def Opt.isNone {α : Type} : Opt α → Bool
  | .Some _ => false
  | .None => true

/-- `SomeImpl.match(fn)` returns `fn.some(this.val)`; `NoneImpl.match({none})`
invokes `none()` if `typeof none === 'function'`, else returns `none` itself. -/
def Opt.matchOn {α β : Type} : Opt α → MatchOption α β → Except JSError β
  | .Some v, fn => fn.some v
  | .None, fn =>
    match fn.none with
    | .inl f => f ()
    | .inr b => .ok b

/-- `SomeImpl.map(fn)` returns `Some(fn(this.val))`; `NoneImpl.map(_fn)`
returns `new NoneImpl()` without invoking the callback. -/
def Opt.map {α β : Type} : Opt α → (α → Except JSError β) → Except JSError (Opt β)
  | .Some v, fn =>
    match fn v with
    | .ok b => .ok (.Some b)
    | .error e => .error e
  | .None, _ => .ok .None

/-- `SomeImpl.andThen(fn)` returns `fn(this.val)` itself; `NoneImpl.andThen(_fn)`
returns `new NoneImpl()` without invoking the callback. -/
def Opt.andThen {α β : Type} : Opt α → (α → Except JSError (Opt β)) → Except JSError (Opt β)
  | .Some v, fn => fn v
  | .None, _ => .ok .None

/-- `SomeImpl.or(_optb)` returns `this`; `NoneImpl.or(optb)` returns `optb`. -/
def Opt.or {α : Type} : Opt α → Opt α → Opt α
  | .Some v, _ => .Some v
  | .None, optb => optb

/-- `SomeImpl.and(optb)` returns `optb`; `NoneImpl.and(_optb)` returns
`new NoneImpl()`. -/
def Opt.and {α β : Type} : Opt α → Opt β → Opt β
  | .Some _, optb => optb
  | .None, _ => .None

/-- `SomeImpl.unwrapOr(_def)` returns `this.val`; `NoneImpl.unwrapOr(def)`
returns `def`. -/
def Opt.unwrapOr {α : Type} : Opt α → α → α
  | .Some v, _ => v
  | .None, d => d

/-- `SomeImpl.unwrap(_msg)` returns `this.val`.  `NoneImpl.unwrap(msg)` does
`if (msg) throw new Error(msg); else throw new ReferenceError('Trying to
unwrap None.')`; under JS truthiness `if (msg)` takes the `else` branch both
when `msg` is `undefined` and when it is the empty string. -/
def Opt.unwrap {α : Type} : Opt α → Option String → Except JSError α
  | .Some v, _ => .ok v
  | .None, some s =>
    if s != "" then .error (.error s)
    else .error (.referenceError "Trying to unwrap None.")
  | .None, none => .error (.referenceError "Trying to unwrap None.")

/-- `OptionExt.ofUndefinable(value)` returns `value === undefined ? None :
Some(value)`. -/
def OptionExt.ofUndefinable {α : Type} : Undefinable α → Opt α
  | .undefined => .None
  | .value v => .Some v

/-- Free function `Some(val)`: constructs `new SomeImpl(val)`. -/
def SomeCtor {α : Type} (val : α) : Opt α := .Some val

/-- Module-level free predicate `isSome(val)`: returns `val.isSome()`. -/
def isSome {α : Type} (val : Opt α) : Bool := val.isSome

/-- Module-level free predicate `isNone(val)`: returns `val.isNone()`. -/
def isNone {α : Type} (val : Opt α) : Bool := val.isNone

/-- The `Either` sum type: `LeftImpl` and `RightImpl`, each holding `val`. -/
inductive Either (L R : Type) where
  | Left (val : L)
  | Right (val : R)
  deriving DecidableEq

/-- Discriminant symbols of `EitherType`. -/
inductive EitherType where
  | Left
  | Right
  deriving DecidableEq

/-- Handler object for `Either.match`: one callback per side. -/
structure MatchEither (L R β : Type) where
  left : L → Except JSError β
  right : R → Except JSError β

/-- The `type` getter of `Either`. -/
def Either.type {L R : Type} : Either L R → EitherType
  | .Left _ => .Left
  | .Right _ => .Right

/-- `LeftImpl.isLeft` is `true`; `RightImpl.isLeft` is `false`. -/
def Either.isLeft {L R : Type} : Either L R → Bool
  | .Left _ => true
  | .Right _ => false

/-- `LeftImpl.isRight` is `false`; `RightImpl.isRight` is `true`. -/
def Either.isRight {L R : Type} : Either L R → Bool
  | .Left _ => false
  | .Right _ => true

/-- `LeftImpl.left()` returns `Some(this.val)`; `RightImpl.left()` returns
`None`. -/
def Either.left {L R : Type} : Either L R → Opt L
  | .Left v => .Some v
  | .Right _ => .None

/-- `LeftImpl.right()` returns `None`; `RightImpl.right()` returns
`Some(this.val)`. -/
def Either.right {L R : Type} : Either L R → Opt R
  | .Left _ => .None
  | .Right v => .Some v

/-- `unwrap()` returns `this.val` on BOTH variants (the current side's
payload, typed `L | R` in the source, embedded as `Sum L R`); neither branch
can throw, so the embedding is a plain total function. -/
def Either.unwrap {L R : Type} : Either L R → Sum L R
  | .Left v => .inl v
  | .Right v => .inr v

/-- `LeftImpl.unwrapLeft()` returns `this.val`; `RightImpl.unwrapLeft()`
throws `new ReferenceError('Cannot unwrap Left value of Either.Right')`. -/
def Either.unwrapLeft {L R : Type} : Either L R → Except JSError L
  | .Left v => .ok v
  | .Right _ => .error (.referenceError "Cannot unwrap Left value of Either.Right")

/-- `LeftImpl.unwrapRight()` throws `new ReferenceError('Cannot unwrap Right
value of Either.Left')`; `RightImpl.unwrapRight()` returns `this.val`. -/
def Either.unwrapRight {L R : Type} : Either L R → Except JSError R
  | .Left _ => .error (.referenceError "Cannot unwrap Right value of Either.Left")
  | .Right v => .ok v

/-- `LeftImpl.unwrapLeftOr(_other)` returns `this.val`;
`RightImpl.unwrapLeftOr(other)` returns `other`. -/
def Either.unwrapLeftOr {L R : Type} : Either L R → L → L
  | .Left v, _ => v
  | .Right _, other => other

/-- `LeftImpl.unwrapRightOr(other)` returns `other`;
`RightImpl.unwrapRightOr(_other)` returns `this.val`. -/
def Either.unwrapRightOr {L R : Type} : Either L R → R → R
  | .Left _, other => other
  | .Right v, _ => v

/-- `match(matchObject)` invokes `matchObject.left(this.val)` on `LeftImpl`
and `matchObject.right(this.val)` on `RightImpl`. -/
def Either.matchOn {L R β : Type} : Either L R → MatchEither L R β → Except JSError β
  | .Left v, m => m.left v
  | .Right v, m => m.right v

/-- `LeftImpl.mapLeft(fn)` returns `Left(fn(this.val))`;
`RightImpl.mapLeft(_fn)` returns `Right(this.val)`. -/
def Either.mapLeft {L R M : Type} :
    Either L R → (L → Except JSError M) → Except JSError (Either M R)
  | .Left v, fn =>
    match fn v with
    | .ok w => .ok (.Left w)
    | .error e => .error e
  | .Right v, _ => .ok (.Right v)

/-- `LeftImpl.mapRight(_fn)` returns `Left(this.val)`;
`RightImpl.mapRight(fn)` returns `Right(fn(this.val))`. -/
def Either.mapRight {L R M : Type} :
    Either L R → (R → Except JSError M) → Except JSError (Either L M)
  | .Left v, _ => .ok (.Left v)
  | .Right v, fn =>
    match fn v with
    | .ok w => .ok (.Right w)
    | .error e => .error e

/-- `LeftImpl.leftAndThen(fn)` returns `fn(this.val)` itself;
`RightImpl.leftAndThen(_fn)` returns `Right(this.val)`. -/
def Either.leftAndThen {L R M : Type} :
    Either L R → (L → Except JSError (Either M R)) → Except JSError (Either M R)
  | .Left v, fn => fn v
  | .Right v, _ => .ok (.Right v)

/-- `LeftImpl.rightAndThen(_fn)` returns `Left(this.val)`;
`RightImpl.rightAndThen(fn)` returns `fn(this.val)` itself. -/
def Either.rightAndThen {L R M : Type} :
    Either L R → (R → Except JSError (Either L M)) → Except JSError (Either L M)
  | .Left v, _ => .ok (.Left v)
  | .Right v, fn => fn v

/-- Module-level free predicate `isLeft(val)`: returns `val.isLeft()`. -/
def isLeft {L R : Type} (val : Either L R) : Bool := val.isLeft

/-- Module-level free predicate `isRight(val)`: returns `val.isRight()`. -/
def isRight {L R : Type} (val : Either L R) : Bool := val.isRight

/-- The `Result` sum type: `OkImpl` holds a success value, `ErrImpl` holds an
error value. -/
inductive Result (α ε : Type) where
  | Ok (val : α)
  | Err (val : ε)
  deriving DecidableEq

/-- Discriminant symbols of `ResultType`. -/
inductive ResultType where
  | Ok
  | Err
  deriving DecidableEq

/-- Handler object for `Result.match`: one callback per variant. -/
structure MatchResult (α ε β : Type) where
  ok : α → Except JSError β
  err : ε → Except JSError β

/-- The `type` getter of `Result`. -/
def Result.type {α ε : Type} : Result α ε → ResultType
  | .Ok _ => .Ok
  | .Err _ => .Err

/-- `OkImpl.isOk` is `true`; `ErrImpl.isOk` is `false`. -/
def Result.isOk {α ε : Type} : Result α ε → Bool
  | .Ok _ => true
  | .Err _ => false

/-- `OkImpl.isErr` is `false`; `ErrImpl.isErr` is `true`. -/
def Result.isErr {α ε : Type} : Result α ε → Bool
  | .Ok _ => false
  | .Err _ => true

/-- `OkImpl.ok()` returns `Some(this.val)`; `ErrImpl.ok()` returns `None`. -/
def Result.ok {α ε : Type} : Result α ε → Opt α
  | .Ok v => .Some v
  | .Err _ => .None

/-- `OkImpl.err()` returns `None`; `ErrImpl.err()` returns `Some(this.val)`. -/
def Result.err {α ε : Type} : Result α ε → Opt ε
  | .Ok _ => .None
  | .Err e => .Some e

/-- `match(matchObject)` invokes `matchObject.ok(this.val)` on `OkImpl` and
`matchObject.err(this.val)` on `ErrImpl`. -/
def Result.matchOn {α ε β : Type} : Result α ε → MatchResult α ε β → Except JSError β
  | .Ok v, m => m.ok v
  | .Err e, m => m.err e

/-- `OkImpl.map(fn)` returns `Ok(fn(this.val))`; `ErrImpl.map(_fn)` returns
`Err(this.val)`. -/
def Result.map {α ε β : Type} :
    Result α ε → (α → Except JSError β) → Except JSError (Result β ε)
  | .Ok v, fn =>
    match fn v with
    | .ok b => .ok (.Ok b)
    | .error e => .error e
  | .Err e, _ => .ok (.Err e)

/-- `OkImpl.mapErr(_fn)` returns `Ok(this.val)`; `ErrImpl.mapErr(fn)` returns
`Err(fn(this.val))`. -/
def Result.mapErr {α ε φ : Type} :
    Result α ε → (ε → Except JSError φ) → Except JSError (Result α φ)
  | .Ok v, _ => .ok (.Ok v)
  | .Err e, fn =>
    match fn e with
    | .ok f => .ok (.Err f)
    | .error e2 => .error e2

/-- `OkImpl.andThen(fn)` returns `fn(this.val)` itself; `ErrImpl.andThen(_fn)`
returns `Err(this.val)`. -/
def Result.andThen {α ε β : Type} :
    Result α ε → (α → Except JSError (Result β ε)) → Except JSError (Result β ε)
  | .Ok v, fn => fn v
  | .Err e, _ => .ok (.Err e)

/-- `OkImpl.orElse(_fn)` returns `Ok(this.val)`; `ErrImpl.orElse(fn)` returns
`fn(this.val)` itself. -/
def Result.orElse {α ε φ : Type} :
    Result α ε → (ε → Except JSError (Result α φ)) → Except JSError (Result α φ)
  | .Ok v, _ => .ok (.Ok v)
  | .Err e, fn => fn e

/-- `OkImpl.unwrap(_msg)` returns `this.val`.  `ErrImpl.unwrap(msg)` does
`if (msg) throw new Error(msg); else throw new ReferenceError('Cannot unwrap
Ok value of Result.Err')` — JS truthiness, the empty string is falsy. -/
def Result.unwrap {α ε : Type} : Result α ε → Option String → Except JSError α
  | .Ok v, _ => .ok v
  | .Err _, some s =>
    if s != "" then .error (.error s)
    else .error (.referenceError "Cannot unwrap Ok value of Result.Err")
  | .Err _, none => .error (.referenceError "Cannot unwrap Ok value of Result.Err")

/-- `OkImpl.unwrapErr(msg)` does `if (msg) throw new Error(msg); else throw
new ReferenceError('Cannot unwrap Err value of Result.Ok')` — JS truthiness.
`ErrImpl.unwrapErr(_msg)` returns `this.val`. -/
def Result.unwrapErr {α ε : Type} : Result α ε → Option String → Except JSError ε
  | .Ok _, some s =>
    if s != "" then .error (.error s)
    else .error (.referenceError "Cannot unwrap Err value of Result.Ok")
  | .Ok _, none => .error (.referenceError "Cannot unwrap Err value of Result.Ok")
  | .Err e, _ => .ok e

/-- `OkImpl.unwrapOr(_optb)` returns `this.val`; `ErrImpl.unwrapOr(optb)`
returns `optb`. -/
def Result.unwrapOr {α ε : Type} : Result α ε → α → α
  | .Ok v, _ => v
  | .Err _, optb => optb

/-- Module-level free predicate `isOk(val)`: returns `val.isOk()`. -/
def isOk {α ε : Type} (val : Result α ε) : Bool := val.isOk

/-- Module-level free predicate `isErr(val)`: returns `val.isErr()`. -/
def isErr {α ε : Type} (val : Result α ε) : Bool := val.isErr

/-!
Allocation-level model, used for claims about reference identity.  A JS
object is modelled as an allocation identifier (its reference) together with
its immutable payload; `new` consumes the current allocation counter as the
fresh id and increments it.  Methods that execute `return this` return the
receiver unchanged (same id); methods that execute `new ...` (directly or via
the factory functions `Some`, `Left`, `Right`, `Ok`, `Err`) return an object
whose id is the current counter.  The allocator invariant is that the counter
is strictly greater than the id of every live object.
-/

namespace Alloc

/-- Payload of an `Option` object. -/
inductive OptVal (α : Type) where
  | someV (v : α)
  | noneV
  deriving DecidableEq

/-- An `Option` heap object: reference identity plus payload. -/
structure OptObj (α : Type) where
  oid : Nat
  val : OptVal α
  deriving DecidableEq

/-- `new SomeImpl(v)` (the body of the factory `Some(val)`). -/
def allocSome {α : Type} (v : α) (c : Nat) : OptObj α × Nat :=
  (⟨c, .someV v⟩, c + 1)

/-- `new NoneImpl()`. -/
def allocNone {α : Type} (c : Nat) : OptObj α × Nat :=
  (⟨c, .noneV⟩, c + 1)

/-- The module-level singleton `const None = new NoneImpl()`, the first
allocation performed by the module (id 0; the counter is 1 afterwards). -/
def NoneSingleton (α : Type) : OptObj α × Nat := allocNone 0

/-- `map`: `SomeImpl.map(fn)` returns `Some(fn(this.val))` (a fresh object);
`NoneImpl.map(_fn)` returns `new NoneImpl()` (a fresh object). -/
def mapObj {α β : Type} (self : OptObj α) (fn : α → β) (c : Nat) : OptObj β × Nat :=
  match self.val with
  | .someV v => allocSome (fn v) c
  | .noneV => allocNone c

/-- `andThen`: `SomeImpl.andThen(fn)` returns `fn(this.val)` (whatever object
the callback produces, allocating as it goes); `NoneImpl.andThen(_fn)`
returns `new NoneImpl()`. -/
def andThenObj {α β : Type} (self : OptObj α) (fn : α → Nat → OptObj β × Nat)
    (c : Nat) : OptObj β × Nat :=
  match self.val with
  | .someV v => fn v c
  | .noneV => allocNone c

/-- `and`: `SomeImpl.and(optb)` returns `optb` (no allocation);
`NoneImpl.and(_optb)` returns `new NoneImpl()`. -/
def andObj {α β : Type} (self : OptObj α) (optb : OptObj β) (c : Nat) :
    OptObj β × Nat :=
  match self.val with
  | .someV _ => (optb, c)
  | .noneV => allocNone c

/-- `or`: `SomeImpl.or(_optb)` returns `this` — the receiver object itself —
while `NoneImpl.or(optb)` returns `optb`; neither branch allocates. -/
def orObj {α : Type} (self : OptObj α) (optb : OptObj α) : OptObj α :=
  match self.val with
  | .someV _ => self
  | .noneV => optb

/-- Payload of an `Either` object. -/
inductive EitherVal (L R : Type) where
  | leftV (v : L)
  | rightV (v : R)
  deriving DecidableEq

/-- An `Either` heap object: reference identity plus payload. -/
structure EitherObj (L R : Type) where
  oid : Nat
  val : EitherVal L R
  deriving DecidableEq

/-- `new LeftImpl(v)` (the body of the factory `Left(val)`). -/
def allocLeft {L R : Type} (v : L) (c : Nat) : EitherObj L R × Nat :=
  (⟨c, .leftV v⟩, c + 1)

/-- `new RightImpl(v)` (the body of the factory `Right(val)`). -/
def allocRight {L R : Type} (v : R) (c : Nat) : EitherObj L R × Nat :=
  (⟨c, .rightV v⟩, c + 1)

/-- `mapRight`: `LeftImpl.mapRight(_fn)` returns `Left(this.val)` — a FRESH
`LeftImpl` holding the same payload, not the receiver; `RightImpl.mapRight(fn)`
returns `Right(fn(this.val))`. -/
def mapRightObj {L R M : Type} (self : EitherObj L R) (fn : R → M) (c : Nat) :
    EitherObj L M × Nat :=
  match self.val with
  | .leftV v => allocLeft v c
  | .rightV v => allocRight (fn v) c

/-- `rightAndThen`: `LeftImpl.rightAndThen(_fn)` returns `Left(this.val)` — a
fresh object; `RightImpl.rightAndThen(fn)` returns `fn(this.val)`. -/
def rightAndThenObj {L R M : Type} (self : EitherObj L R)
    (fn : R → Nat → EitherObj L M × Nat) (c : Nat) : EitherObj L M × Nat :=
  match self.val with
  | .leftV v => allocLeft v c
  | .rightV v => fn v c

/-- Payload of a `Result` object. -/
inductive ResVal (α ε : Type) where
  | okV (v : α)
  | errV (e : ε)
  deriving DecidableEq

/-- A `Result` heap object: reference identity plus payload. -/
structure ResObj (α ε : Type) where
  oid : Nat
  val : ResVal α ε
  deriving DecidableEq

/-- `new OkImpl(v)` (the body of the factory `Ok(val)`). -/
def allocOk {α ε : Type} (v : α) (c : Nat) : ResObj α ε × Nat :=
  (⟨c, .okV v⟩, c + 1)

/-- `new ErrImpl(e)` (the body of the factory `Err(val)`). -/
def allocErr {α ε : Type} (e : ε) (c : Nat) : ResObj α ε × Nat :=
  (⟨c, .errV e⟩, c + 1)

/-- `mapErr`: `OkImpl.mapErr(_fn)` returns `Ok(this.val)` — a fresh `OkImpl`
holding the same payload, not the receiver; `ErrImpl.mapErr(fn)` returns
`Err(fn(this.val))`. -/
def mapErrObj {α ε φ : Type} (self : ResObj α ε) (fn : ε → φ) (c : Nat) :
    ResObj α φ × Nat :=
  match self.val with
  | .okV v => allocOk v c
  | .errV e => allocErr (fn e) c

/-- `orElse`: `OkImpl.orElse(_fn)` returns `Ok(this.val)` — a fresh object;
`ErrImpl.orElse(fn)` returns `fn(this.val)`. -/
def orElseObj {α ε φ : Type} (self : ResObj α ε)
    (fn : ε → Nat → ResObj α φ × Nat) (c : Nat) : ResObj α φ × Nat :=
  match self.val with
  | .okV v => allocOk v c
  | .errV e => fn e c

end Alloc

/-!
Claims.
-/

/-- C1 (counterexample): the claim quantifies over EVERY message string, but
with the empty string supplied, `None.unwrap("")` does not fail with a
generic error carrying `""`: the `if (msg)` truthiness test treats `""` as
absent and the default reference error is raised instead.  The same holds for
`Err(e).unwrap("")` and `Ok(v).unwrapErr("")`. -/
theorem C1_empty_message_counterexample :
    (Opt.None : Opt Nat).unwrap (some "") =
      Except.error (JSError.referenceError "Trying to unwrap None.") ∧
    (Opt.None : Opt Nat).unwrap (some "") ≠ Except.error (JSError.error "") ∧
    (Result.Err 7 : Result Nat Nat).unwrap (some "") ≠
      Except.error (JSError.error "") ∧
    (Result.Ok 7 : Result Nat Nat).unwrapErr (some "") ≠
      Except.error (JSError.error "") := by
  refine ⟨rfl, ?_, ?_, ?_⟩ <;> simp [Opt.unwrap, Result.unwrap, Result.unwrapErr]

/-- C1 (amended): for every NON-EMPTY message string `msgStr`,
`None.unwrap(msgStr)` fails with a generic error carrying exactly `msgStr`,
`Err(e).unwrap(msgStr)` fails with a generic error carrying exactly `msgStr`,
and `Ok(v).unwrapErr(msgStr)` fails with a generic error carrying exactly
`msgStr`, overriding the default misuse message in each case (an empty
message behaves like an omitted one, by C1's counterexample). -/
theorem C1_custom_message_amended (α ε : Type) (v : α) (e : ε)
    (msgStr : String) (hne : msgStr ≠ "") :
    (Opt.None : Opt α).unwrap (some msgStr) =
      Except.error (JSError.error msgStr) ∧
    (Result.Err e : Result α ε).unwrap (some msgStr) =
      Except.error (JSError.error msgStr) ∧
    (Result.Ok v : Result α ε).unwrapErr (some msgStr) =
      Except.error (JSError.error msgStr) := by
  refine ⟨?_, ?_, ?_⟩ <;> simp [Opt.unwrap, Result.unwrap, Result.unwrapErr, hne]

/-- C1 (witness): the amended theorem applied at the concrete message
`"boom"` on `Opt Nat` and `Result Nat Nat`. -/
theorem C1_custom_message_amended_witness :
    ("boom" : String) ≠ "" ∧
    (Opt.None : Opt Nat).unwrap (some "boom") =
      Except.error (JSError.error "boom") :=
  ⟨by decide, (C1_custom_message_amended Nat Nat 0 0 "boom" (by decide)).1⟩

/-- C2: with no custom message supplied, each wrong-side unwrap fails with
its fixed reference-error message and each own-side unwrap returns the held
payload: `None.unwrap()` throws "Trying to unwrap None." while
`Some(v).unwrap()` returns `v`; `Left(x).unwrapRight()` throws "Cannot unwrap
Right value of Either.Left" while `Left(x).unwrapLeft()` returns `x`;
`Right(y).unwrapLeft()` throws "Cannot unwrap Left value of Either.Right"
while `Right(y).unwrapRight()` returns `y`; `Err(e).unwrap()` throws "Cannot
unwrap Ok value of Result.Err"; `Ok(w).unwrapErr()` throws "Cannot unwrap Err
value of Result.Ok". -/
theorem C2_default_misuse_errors (α β ε : Type) (v x w : α) (y : β) (e : ε) :
    (Opt.None : Opt α).unwrap none =
      Except.error (JSError.referenceError "Trying to unwrap None.") ∧
    (Opt.Some v).unwrap none = Except.ok v ∧
    (Either.Left x : Either α β).unwrapRight =
      Except.error (JSError.referenceError "Cannot unwrap Right value of Either.Left") ∧
    (Either.Left x : Either α β).unwrapLeft = Except.ok x ∧
    (Either.Right y : Either α β).unwrapLeft =
      Except.error (JSError.referenceError "Cannot unwrap Left value of Either.Right") ∧
    (Either.Right y : Either α β).unwrapRight = Except.ok y ∧
    (Result.Err e : Result α ε).unwrap none =
      Except.error (JSError.referenceError "Cannot unwrap Ok value of Result.Err") ∧
    (Result.Ok w : Result α ε).unwrapErr none =
      Except.error (JSError.referenceError "Cannot unwrap Err value of Result.Ok") :=
  ⟨rfl, rfl, rfl, rfl, rfl, rfl, rfl, rfl⟩

/-- C3: `Some(v).match` invokes the `some` handler on `v` and returns its
result (whether the `none` field is a callback or a literal), while
`None.match` invokes the `none` handler and returns its result when it is
callable (`Sum.inl`), and returns the `none` field itself as a literal
default value otherwise (`Sum.inr`). -/
theorem C3_match_option (α β : Type) (v : α) (s : α → Except JSError β)
    (f : Unit → Except JSError β) (b : β) :
    (Opt.Some v).matchOn ⟨s, Sum.inl f⟩ = s v ∧
    (Opt.Some v).matchOn ⟨s, Sum.inr b⟩ = s v ∧
    (Opt.None : Opt α).matchOn ⟨s, Sum.inl f⟩ = f () ∧
    (Opt.None : Opt α).matchOn ⟨s, Sum.inr b⟩ = Except.ok b :=
  ⟨rfl, rfl, rfl, rfl⟩

/-- C4: `Either.unwrap()` is current-side, not Right-biased: `Left(x).unwrap()`
returns the held payload `x` (as the left component of the union-typed
result) and `Right(y).unwrap()` returns the held payload `y`; the embedding
of `unwrap` is a plain total function, so neither variant can fail. -/
theorem C4_either_unwrap_current_side (L R : Type) (x : L) (y : R) :
    (Either.Left x : Either L R).unwrap = Sum.inl x ∧
    (Either.Right y : Either L R).unwrap = Sum.inr y :=
  ⟨rfl, rfl⟩

/-- C5: monadic chaining passes the callback's result through directly,
without re-wrapping: `Some(v).andThen(fn)` is exactly `fn(v)`,
`Ok(v).andThen(g)` is exactly `g(v)` — including for a `g` that returns
`Err(...)` — and `Err(e).orElse(h)` is exactly `h(e)`. -/
theorem C5_chain_passthrough (α β ε : Type) (v : α) (e e2 : ε)
    (fn : α → Except JSError (Opt β))
    (g : α → Except JSError (Result β ε))
    (h : ε → Except JSError (Result α ε)) :
    (Opt.Some v).andThen fn = fn v ∧
    (Result.Ok v : Result α ε).andThen g = g v ∧
    (Result.Ok v : Result α ε).andThen (fun _ => Except.ok (Result.Err e2 : Result β ε)) =
      Except.ok (Result.Err e2 : Result β ε) ∧
    (Result.Err e : Result α ε).orElse h = h e :=
  ⟨rfl, rfl, rfl, rfl⟩

/-- C6: monad identity law for `Option`: for both variants, chaining with the
callback `x => Some(x)` yields a result structurally equal to the receiver —
same variant and same payload (and the chain does not throw). -/
theorem C6_option_identity_law (α : Type) (o : Opt α) :
    o.andThen (fun x => Except.ok (Opt.Some x)) = Except.ok o := by
  cases o <;> rfl

/-- C7: the projections into `Option` round-trip: `Left(x).left()` is
`Some(x)` (so unwrapping it yields `x`) and `Left(x).right()` is `None`;
mirrored, `Right(y).right()` is `Some(y)` and `Right(y).left()` is `None`;
`Ok(v).ok()` is `Some(v)` and `Ok(v).err()` is `None`; `Err(e).err()` is
`Some(e)` and `Err(e).ok()` is `None`. -/
theorem C7_projection_roundtrip (L R α ε : Type) (x : L) (y : R) (v : α) (e : ε) :
    (Either.Left x : Either L R).left = Opt.Some x ∧
    ((Either.Left x : Either L R).left).unwrap none = Except.ok x ∧
    (Either.Left x : Either L R).right = Opt.None ∧
    (Either.Right y : Either L R).right = Opt.Some y ∧
    ((Either.Right y : Either L R).right).unwrap none = Except.ok y ∧
    (Either.Right y : Either L R).left = Opt.None ∧
    (Result.Ok v : Result α ε).ok = Opt.Some v ∧
    (Result.Ok v : Result α ε).err = Opt.None ∧
    (Result.Err e : Result α ε).err = Opt.Some e ∧
    (Result.Err e : Result α ε).ok = Opt.None :=
  ⟨rfl, rfl, rfl, rfl, rfl, rfl, rfl, rfl, rfl, rfl⟩

/-- C8: `OptionExt.ofUndefinable(value)` returns `None` if and only if the
input is the `undefined` sentinel, and returns `Some(value)` for every other
input — in particular `ofUndefinable(null)` is `Some(null)`, since only
`undefined` is the absent sentinel. -/
theorem C8_ofUndefinable (α : Type) (u : Undefinable α) (v : α) :
    (OptionExt.ofUndefinable u = Opt.None ↔ u = Undefinable.undefined) ∧
    OptionExt.ofUndefinable (Undefinable.value v) = Opt.Some v ∧
    OptionExt.ofUndefinable (Undefinable.value JSVal.null) = Opt.Some JSVal.null := by
  refine ⟨?_, rfl, rfl⟩
  cases u <;> simp [OptionExt.ofUndefinable]

/-- C9: totality of every non-unwrap operation.  Operations that never
evaluate a callback and contain no `throw` (the factories, `isSome`/`isNone`/
`isLeft`/`isRight`/`isOk`/`isErr`, `or`/`and`, `unwrapOr`/`unwrapLeftOr`/
`unwrapRightOr`, `left`/`right`/`ok`/`err`, `Either.unwrap`, `ofUndefinable`
and the free predicates) are embedded as plain total functions, so they
cannot fail by construction.  The remaining non-unwrap operations evaluate
caller-supplied callbacks; this theorem shows each of them, on BOTH variants
of its receiver, returns normally whenever the supplied callbacks do. -/
theorem C9_nonunwrap_totality (α β γ : Type) :
    (∀ (o : Opt α) (m : MatchOption α γ),
      (∀ v, returnsNormally (m.some v)) →
      (∀ f, m.none = Sum.inl f → returnsNormally (f ())) →
      returnsNormally (o.matchOn m)) ∧
    (∀ (o : Opt α) (fn : α → Except JSError γ),
      (∀ v, returnsNormally (fn v)) → returnsNormally (o.map fn)) ∧
    (∀ (o : Opt α) (fn : α → Except JSError (Opt γ)),
      (∀ v, returnsNormally (fn v)) → returnsNormally (o.andThen fn)) ∧
    (∀ (e : Either α β) (m : MatchEither α β γ),
      (∀ v, returnsNormally (m.left v)) → (∀ v, returnsNormally (m.right v)) →
      returnsNormally (e.matchOn m)) ∧
    (∀ (e : Either α β) (fn : α → Except JSError γ),
      (∀ v, returnsNormally (fn v)) → returnsNormally (e.mapLeft fn)) ∧
    (∀ (e : Either α β) (fn : β → Except JSError γ),
      (∀ v, returnsNormally (fn v)) → returnsNormally (e.mapRight fn)) ∧
    (∀ (e : Either α β) (fn : α → Except JSError (Either γ β)),
      (∀ v, returnsNormally (fn v)) → returnsNormally (e.leftAndThen fn)) ∧
    (∀ (e : Either α β) (fn : β → Except JSError (Either α γ)),
      (∀ v, returnsNormally (fn v)) → returnsNormally (e.rightAndThen fn)) ∧
    (∀ (r : Result α β) (m : MatchResult α β γ),
      (∀ v, returnsNormally (m.ok v)) → (∀ v, returnsNormally (m.err v)) →
      returnsNormally (r.matchOn m)) ∧
    (∀ (r : Result α β) (fn : α → Except JSError γ),
      (∀ v, returnsNormally (fn v)) → returnsNormally (r.map fn)) ∧
    (∀ (r : Result α β) (fn : β → Except JSError γ),
      (∀ v, returnsNormally (fn v)) → returnsNormally (r.mapErr fn)) ∧
    (∀ (r : Result α β) (fn : α → Except JSError (Result γ β)),
      (∀ v, returnsNormally (fn v)) → returnsNormally (r.andThen fn)) ∧
    (∀ (r : Result α β) (fn : β → Except JSError (Result α γ)),
      (∀ v, returnsNormally (fn v)) → returnsNormally (r.orElse fn)) := by
  refine ⟨?_, ?_, ?_, ?_, ?_, ?_, ?_, ?_, ?_, ?_, ?_, ?_, ?_⟩
  · intro o m hs hn
    obtain ⟨ms, mn⟩ := m
    cases o with
    | Some v => exact hs v
    | None =>
      cases mn with
      | inl f => exact hn f rfl
      | inr b => exact ⟨b, rfl⟩
  · intro o fn h
    cases o with
    | Some v =>
      obtain ⟨b, hb⟩ := h v
      exact ⟨Opt.Some b, by simp [Opt.map, hb]⟩
    | None => exact ⟨Opt.None, rfl⟩
  · intro o fn h
    cases o with
    | Some v => exact h v
    | None => exact ⟨Opt.None, rfl⟩
  · intro e m hl hr
    cases e with
    | Left v => exact hl v
    | Right v => exact hr v
  · intro e fn h
    cases e with
    | Left v =>
      obtain ⟨b, hb⟩ := h v
      exact ⟨Either.Left b, by simp [Either.mapLeft, hb]⟩
    | Right v => exact ⟨Either.Right v, rfl⟩
  · intro e fn h
    cases e with
    | Left v => exact ⟨Either.Left v, rfl⟩
    | Right v =>
      obtain ⟨b, hb⟩ := h v
      exact ⟨Either.Right b, by simp [Either.mapRight, hb]⟩
  · intro e fn h
    cases e with
    | Left v => exact h v
    | Right v => exact ⟨Either.Right v, rfl⟩
  · intro e fn h
    cases e with
    | Left v => exact ⟨Either.Left v, rfl⟩
    | Right v => exact h v
  · intro r m ho he
    cases r with
    | Ok v => exact ho v
    | Err v => exact he v
  · intro r fn h
    cases r with
    | Ok v =>
      obtain ⟨b, hb⟩ := h v
      exact ⟨Result.Ok b, by simp [Result.map, hb]⟩
    | Err v => exact ⟨Result.Err v, rfl⟩
  · intro r fn h
    cases r with
    | Ok v => exact ⟨Result.Ok v, rfl⟩
    | Err v =>
      obtain ⟨b, hb⟩ := h v
      exact ⟨Result.Err b, by simp [Result.mapErr, hb]⟩
  · intro r fn h
    cases r with
    | Ok v => exact h v
    | Err v => exact ⟨Result.Err v, rfl⟩
  · intro r fn h
    cases r with
    | Ok v => exact ⟨Result.Ok v, rfl⟩
    | Err v => exact h v

/-- C9 (witness): the `Option.map` clause of the totality theorem applied to
a concrete receiver and a concrete non-throwing callback. -/
theorem C9_nonunwrap_totality_witness :
    returnsNormally ((Opt.Some 5).map (fun v => Except.ok (v + 1))) :=
  (C9_nonunwrap_totality Nat Nat Nat).2.1 (Opt.Some 5)
    (fun v => Except.ok (v + 1)) (fun v => ⟨v + 1, rfl⟩)

/-- C10: results the spec calls "None" or "unchanged" are fresh objects, not
the receiver and not the shared `None` singleton, while `Some(v).or(optb)`
really is the receiver.  Under the allocator invariant (the counter `c`
exceeds the id of every live object): `None.map(fn)`, `None.andThen(fn)` and
`None.and(optb)` return a `None`-valued object whose id differs from the
receiver's (so in particular from the shared singleton's);
`Left(x).mapRight(fn)` and `Left(x).rightAndThen(fn)` return a fresh `Left`
holding the same payload `x`; `Ok(v).mapErr(fn)` and `Ok(v).orElse(fn)`
return a fresh `Ok` holding the same payload `v`; and `Some(v).or(optb)`
returns the receiver object itself, id included. -/
theorem C10_fresh_instances (α β L R M T E F : Type) :
    (∀ (n : Alloc.OptObj α) (fn : α → β) (c : Nat),
      n.val = Alloc.OptVal.noneV → n.oid < c →
      (Alloc.mapObj n fn c).1.val = Alloc.OptVal.noneV ∧
      (Alloc.mapObj n fn c).1.oid ≠ n.oid) ∧
    (∀ (n : Alloc.OptObj α) (fn : α → Nat → Alloc.OptObj β × Nat) (c : Nat),
      n.val = Alloc.OptVal.noneV → n.oid < c →
      (Alloc.andThenObj n fn c).1.val = Alloc.OptVal.noneV ∧
      (Alloc.andThenObj n fn c).1.oid ≠ n.oid) ∧
    (∀ (n : Alloc.OptObj α) (optb : Alloc.OptObj β) (c : Nat),
      n.val = Alloc.OptVal.noneV → n.oid < c →
      (Alloc.andObj n optb c).1.val = Alloc.OptVal.noneV ∧
      (Alloc.andObj n optb c).1.oid ≠ n.oid) ∧
    (∀ (l : Alloc.EitherObj L R) (x : L) (fn : R → M) (c : Nat),
      l.val = Alloc.EitherVal.leftV x → l.oid < c →
      (Alloc.mapRightObj l fn c).1.val = Alloc.EitherVal.leftV x ∧
      (Alloc.mapRightObj l fn c).1.oid ≠ l.oid) ∧
    (∀ (l : Alloc.EitherObj L R) (x : L) (fn : R → Nat → Alloc.EitherObj L M × Nat) (c : Nat),
      l.val = Alloc.EitherVal.leftV x → l.oid < c →
      (Alloc.rightAndThenObj l fn c).1.val = Alloc.EitherVal.leftV x ∧
      (Alloc.rightAndThenObj l fn c).1.oid ≠ l.oid) ∧
    (∀ (o : Alloc.ResObj T E) (v : T) (fn : E → F) (c : Nat),
      o.val = Alloc.ResVal.okV v → o.oid < c →
      (Alloc.mapErrObj o fn c).1.val = Alloc.ResVal.okV v ∧
      (Alloc.mapErrObj o fn c).1.oid ≠ o.oid) ∧
    (∀ (o : Alloc.ResObj T E) (v : T) (fn : E → Nat → Alloc.ResObj T F × Nat) (c : Nat),
      o.val = Alloc.ResVal.okV v → o.oid < c →
      (Alloc.orElseObj o fn c).1.val = Alloc.ResVal.okV v ∧
      (Alloc.orElseObj o fn c).1.oid ≠ o.oid) ∧
    (∀ (s : Alloc.OptObj α) (v : α) (optb : Alloc.OptObj α),
      s.val = Alloc.OptVal.someV v → Alloc.orObj s optb = s) := by
  refine ⟨?_, ?_, ?_, ?_, ?_, ?_, ?_, ?_⟩
  · intro n fn c hval hlt
    obtain ⟨i, nv⟩ := n
    cases nv with
    | someV w => simp at hval
    | noneV =>
      have h2 : i < c := hlt
      exact ⟨rfl, by show c ≠ i; omega⟩
  · intro n fn c hval hlt
    obtain ⟨i, nv⟩ := n
    cases nv with
    | someV w => simp at hval
    | noneV =>
      have h2 : i < c := hlt
      exact ⟨rfl, by show c ≠ i; omega⟩
  · intro n optb c hval hlt
    obtain ⟨i, nv⟩ := n
    cases nv with
    | someV w => simp at hval
    | noneV =>
      have h2 : i < c := hlt
      exact ⟨rfl, by show c ≠ i; omega⟩
  · intro l x fn c hval hlt
    obtain ⟨i, lv⟩ := l
    cases lv with
    | leftV w =>
      have h2 : i < c := hlt
      constructor
      · show Alloc.EitherVal.leftV w = Alloc.EitherVal.leftV x
        simpa using hval
      · show c ≠ i
        omega
    | rightV w => simp at hval
  · intro l x fn c hval hlt
    obtain ⟨i, lv⟩ := l
    cases lv with
    | leftV w =>
      have h2 : i < c := hlt
      constructor
      · show Alloc.EitherVal.leftV w = Alloc.EitherVal.leftV x
        simpa using hval
      · show c ≠ i
        omega
    | rightV w => simp at hval
  · intro o v fn c hval hlt
    obtain ⟨i, ov⟩ := o
    cases ov with
    | okV w =>
      have h2 : i < c := hlt
      constructor
      · show Alloc.ResVal.okV w = Alloc.ResVal.okV v
        simpa using hval
      · show c ≠ i
        omega
    | errV w => simp at hval
  · intro o v fn c hval hlt
    obtain ⟨i, ov⟩ := o
    cases ov with
    | okV w =>
      have h2 : i < c := hlt
      constructor
      · show Alloc.ResVal.okV w = Alloc.ResVal.okV v
        simpa using hval
      · show c ≠ i
        omega
    | errV w => simp at hval
  · intro s v optb hval
    obtain ⟨i, sv⟩ := s
    cases sv with
    | someV w => rfl
    | noneV => simp at hval

/-- C10 (witness): `None.map(fn)` invoked on the shared `None` singleton
(allocated with id 0 at module initialisation) with the allocation counter at
1 yields a `None`-valued object whose reference differs from the singleton's. -/
theorem C10_fresh_instances_witness :
    (Alloc.mapObj (Alloc.NoneSingleton Nat).1 (fun v : Nat => v + 1) 1).1.val =
      Alloc.OptVal.noneV ∧
    (Alloc.mapObj (Alloc.NoneSingleton Nat).1 (fun v : Nat => v + 1) 1).1.oid ≠
      (Alloc.NoneSingleton Nat).1.oid :=
  (C10_fresh_instances Nat Nat Nat Nat Nat Nat Nat Nat).1
    (Alloc.NoneSingleton Nat).1 (fun v => v + 1) 1 rfl (by decide)
